import Mathlib

set_option maxRecDepth 4000

/-!
Verification of the gas-leakage detector sketch (`src/main.ino`).

The sketch is a straight-line sense-decide-act loop with no data structures;
we embed each method as the finite list of observable side effects (pin
writes, tone commands, delays, LCD operations, modem serial writes, USB
serial log lines) it performs, in program order.  Pin-state questions are
settled by folding a small-step interpreter over such a trace; LCD-content
questions by folding an LCD interpreter.
-/

/-- One observable side effect of the sketch, in program order.  `digitalWrite`
carries the pin number and the level (`true` = HIGH).  `gsmPrintln` /
`gsmWriteByte` are writes on the SoftwareSerial link to the modem;
`logPrint` / `logPrintln` are the USB `Serial` diagnostics. -/
inductive Event where
  | digitalWrite (pin : Nat) (level : Bool)
  | tone (pin freq dur : Nat)
  | noTone (pin : Nat)
  | delay (ms : Nat)
  | lcdClear
  | lcdSetCursor (col row : Nat)
  | lcdPrint (s : List Char)
  | gsmPrintln (s : List Char)
  | gsmWriteByte (b : Nat)
  | logPrint (s : List Char)
  | logPrintln (s : List Char)
  deriving DecidableEq, Repr

/-- `const int THRESHOLD = 500;` -/
def THRESHOLD : Int := 500

/-- `ALARM_PINS[] = {13, 9, 8, 12}` is `{buzzer, redLED, greenLED, relay}`. -/
def buzzerPin : Nat := 13

/-- Red (danger) LED pin, `ALARM_PINS[1]`. -/
def redLedPin : Nat := 9

/-- Green (safe) LED pin, `ALARM_PINS[2]`. -/
def greenLedPin : Nat := 8

/-- Relay pin, `ALARM_PINS[3]`. -/
def relayPin : Nat := 12

/-- Decimal digits of `n`, most significant first, as `%d` renders a
non-negative value; `fuel` bounds the recursion depth (any `fuel > n`
suffices, digits are peeled from the low end). -/
def natCharsAux : Nat → Nat → List Char
  | 0, _ => []
  | fuel + 1, n =>
    if n < 10 then [Nat.digitChar n]
    else natCharsAux fuel (n / 10) ++ [Nat.digitChar (n % 10)]

/-- Decimal rendering of a natural number. -/
def natChars (n : Nat) : List Char := natCharsAux (n + 1) n

/-- `%d` rendering of a C `int`. -/
def intChars (i : Int) : List Char :=
  if i < 0 then '-' :: natChars i.natAbs else natChars i.toNat

/-- Model of `snprintf(buf, size, ...)`: the rendered text truncated to
`size - 1` characters (one byte of the buffer is reserved for the
terminating null). -/
def snprintfTake (size : Nat) (s : List Char) : List Char := s.take (size - 1)

/-- The text rendered by `snprintf(..., "Gas Level: %d", level)` before any
buffer truncation. -/
def gasLine (level : Int) : List Char := "Gas Level: ".toList ++ intChars level

/-- The C test `line2[0] != '\0'` in `Display::showMessage`: the empty string
has a null first character. -/
def firstCharNonNull : List Char → Bool
  | [] => false
  | c :: _ => c != Char.ofNat 0

/-- `Display::showMessage(line1, line2)`: clear, print `line1` at `(0,0)`,
and print `line2` at `(0,1)` only when its first character is non-null.
The C++ default argument `line2 = ""` is passed explicitly as `[]`. -/
def Display.showMessage (line1 line2 : List Char) : List Event :=
  [Event.lcdClear, Event.lcdSetCursor 0 0, Event.lcdPrint line1] ++
    (if firstCharNonNull line2 then
      [Event.lcdSetCursor 0 1, Event.lcdPrint line2]
    else [])

/-- `Display::showGasLevel(level)`: format `"Gas Level: %d"` into a 16-byte
buffer with `snprintf`, then `showMessage("Gas Scan is ON", buffer)`. -/
def Display.showGasLevel (level : Int) : List Event :=
  Display.showMessage "Gas Scan is ON".toList (snprintfTake 16 (gasLine level))

/-- `Alarm::trigger()`: red HIGH, green LOW, relay HIGH. -/
def Alarm.trigger : List Event :=
  [Event.digitalWrite redLedPin true,
   Event.digitalWrite greenLedPin false,
   Event.digitalWrite relayPin true]

/-- `Alarm::reset()`: buzzer LOW, red LOW, green HIGH, relay LOW. -/
def Alarm.reset : List Event :=
  [Event.digitalWrite buzzerPin false,
   Event.digitalWrite redLedPin false,
   Event.digitalWrite greenLedPin true,
   Event.digitalWrite relayPin false]

/-- `Alarm::playStartupSound()`: four tones with inter-tone delays, then
`noTone`. -/
def Alarm.playStartupSound : List Event :=
  [Event.tone buzzerPin 2000 150, Event.delay 150,
   Event.tone buzzerPin 2000 180, Event.delay 150,
   Event.tone buzzerPin 2500 100, Event.delay 200,
   Event.tone buzzerPin 3000 150, Event.delay 250,
   Event.noTone buzzerPin]

/-- Effect trace of a C `for (int i = 0; i < n; i++) body;` loop whose body
only emits effects. -/
def cppFor (n : Nat) (body : Nat → List Event) : List Event :=
  List.flatten ((List.range n).map body)

/-- The body of the inner `for (int i = 0; i < 5; i++)` loop of
`Alarm::playAlertSound`: four tones, each followed by a short delay. -/
def Alarm.alertInnerBody : List Event :=
  [Event.tone buzzerPin 2000 150, Event.delay 100,
   Event.tone buzzerPin 4000 150, Event.delay 160,
   Event.tone buzzerPin 2500 150, Event.delay 100,
   Event.tone buzzerPin 4500 150, Event.delay 160]

/-- `Alarm::playAlertSound()`: outer loop of 2, inner loop of 5 over the
four-tone body, a 1000 ms delay after each inner loop, then `noTone`. -/
def Alarm.playAlertSound : List Event :=
  cppFor 2 (fun _ => cppFor 5 (fun _ => Alarm.alertInnerBody) ++ [Event.delay 1000]) ++
    [Event.noTone buzzerPin]

/-- `GSMModule::sendMessage(message, gasLevel)`: mode-set command, send
command addressed to the hard-coded number, the message body and the
formatted gas-level line (a 30-byte `snprintf` buffer), the CTRL+Z
terminator byte 26, with `delay(1000)` after the first command, after the
second command, and after the terminator byte. -/
def GSMModule.sendMessage (message : List Char) (gasLevel : Int) : List Event :=
  [Event.gsmPrintln "AT+CMGF=1".toList,
   Event.delay 1000,
   Event.gsmPrintln "AT+CMGS=\"+91xxxxxxxxxx\"\r".toList,
   Event.delay 1000,
   Event.gsmPrintln message,
   Event.gsmPrintln (snprintfTake 30 (gasLine gasLevel)),
   Event.gsmWriteByte 26,
   Event.delay 1000]

/-- `GasLeakageDetector::detectAndRespond()` with sensor reading `gasLevel`:
log the reading, show it on the LCD, then branch on
`gasLevel > threshold` into the danger sequence (trigger, SMS, log, alert
tone, "Gas Level Exceed"/"SMS Sent") or the safe sequence (reset, log,
"Gas Level Normal"), and finally `delay(1000)`. -/
def GasLeakageDetector.detectAndRespond (threshold gasLevel : Int) : List Event :=
  [Event.logPrint "Gas Level: ".toList, Event.logPrintln (intChars gasLevel)] ++
  Display.showGasLevel gasLevel ++
  (if gasLevel > threshold then
    Alarm.trigger ++
    GSMModule.sendMessage "Excess Gas Detected".toList gasLevel ++
    [Event.logPrintln "Excess Gas Detected".toList] ++
    Alarm.playAlertSound ++
    Display.showMessage "Gas Level Exceed".toList "SMS Sent".toList
  else
    Alarm.reset ++
    [Event.logPrintln "Gas Level Normal".toList] ++
    Display.showMessage "Gas Level Normal".toList []) ++
  [Event.delay 1000]

/-- Digital pin state: applying one event.  Only `digitalWrite` changes a
pin's latched output level. -/
def applyEvent (s : Nat → Bool) : Event → (Nat → Bool)
  | Event.digitalWrite p l => Function.update s p l
  | _ => s

/-- Digital pin state after running a whole effect trace. -/
def applyTrace (t : List Event) (s : Nat → Bool) : Nat → Bool :=
  t.foldl applyEvent s

/-- State of the 16x2 character LCD: the two rows (16 cells each) and the
cursor position. -/
structure LCDState where
  row0 : List Char
  row1 : List Char
  col : Nat
  row : Nat
  deriving DecidableEq, Repr

/-- A blank 16-cell LCD row. -/
def blankRow : List Char := List.replicate 16 ' '

/-- Overwrite the cells of `rowChars` from column `col` on with `s`,
keeping 16 cells. -/
def writeAt (rowChars : List Char) (col : Nat) (s : List Char) : List Char :=
  (rowChars.take col ++ s ++ rowChars.drop (col + s.length)).take 16

/-- LCD semantics of one event: `clear` blanks both rows and homes the
cursor, `setCursor` moves it, `print` writes at the cursor and advances it;
other events do not touch the display. -/
def applyLcdEvent (st : LCDState) : Event → LCDState
  | Event.lcdClear => ⟨blankRow, blankRow, 0, 0⟩
  | Event.lcdSetCursor c r => ⟨st.row0, st.row1, c, r⟩
  | Event.lcdPrint s =>
    if st.row = 0 then ⟨writeAt st.row0 st.col s, st.row1, st.col + s.length, st.row⟩
    else ⟨st.row0, writeAt st.row1 st.col s, st.col + s.length, st.row⟩
  | _ => st

/-- LCD state after running a whole effect trace. -/
def applyLcdTrace (t : List Event) (st : LCDState) : LCDState :=
  t.foldl applyLcdEvent st

/-- A row holding `s` starting at column 0, blank-padded and truncated to the
16 cells of the display. -/
def padRow (s : List Char) : List Char := (s ++ List.replicate 16 ' ').take 16

/-- Is this event a write on the modem serial link? -/
def isGsmEvent : Event → Bool
  | Event.gsmPrintln _ => true
  | Event.gsmWriteByte _ => true
  | _ => false

/-- Is this event a `tone` command? -/
def isToneEvent : Event → Bool
  | Event.tone _ _ _ => true
  | _ => false

/-- Is this event an LCD operation? -/
def isLcdEvent : Event → Bool
  | Event.lcdClear => true
  | Event.lcdSetCursor _ _ => true
  | Event.lcdPrint _ => true
  | _ => false

/-- The Danger-branch outputs named by the spec: red LED driven HIGH, green
LED driven LOW, relay driven HIGH, exactly one SMS sent (counted by its
unique leading mode-set command), at least one alert tone, and the
"Gas Level Exceed" / "SMS Sent" display lines. -/
def DangerOutputs (t : List Event) : Prop :=
  Event.digitalWrite redLedPin true ∈ t ∧
  Event.digitalWrite greenLedPin false ∈ t ∧
  Event.digitalWrite relayPin true ∈ t ∧
  t.countP (fun e => e = Event.gsmPrintln "AT+CMGF=1".toList) = 1 ∧
  t.countP isToneEvent ≠ 0 ∧
  Event.lcdPrint "Gas Level Exceed".toList ∈ t ∧
  Event.lcdPrint "SMS Sent".toList ∈ t

/-- The Safe-branch outputs named by the spec: buzzer LOW, red LED LOW,
green LED HIGH, relay LOW, the "Gas Level Normal" display line, and no
write at all on the modem link. -/
def SafeOutputs (t : List Event) : Prop :=
  Event.digitalWrite buzzerPin false ∈ t ∧
  Event.digitalWrite redLedPin false ∈ t ∧
  Event.digitalWrite greenLedPin true ∈ t ∧
  Event.digitalWrite relayPin false ∈ t ∧
  Event.lcdPrint "Gas Level Normal".toList ∈ t ∧
  t.countP isGsmEvent = 0

/-- Phase tag used to state the Danger-branch ordering: `0` for an LCD
clear (each display update starts with one), `1` for an actuator
`digitalWrite`, `2` for a modem write, `3` for a tone command (`tone` or
`noTone`); other events carry no tag. -/
def phaseOf : Event → Option Nat
  | Event.lcdClear => some 0
  | Event.digitalWrite _ _ => some 1
  | Event.gsmPrintln _ => some 2
  | Event.gsmWriteByte _ => some 2
  | Event.tone _ _ _ => some 3
  | Event.noTone _ => some 3
  | _ => none

lemma natCharsAux_length_le (fuel : Nat) :
    ∀ n k : Nat, 1 ≤ k → n < 10 ^ k → (natCharsAux fuel n).length ≤ k := by
  induction fuel with
  | zero => intro n k hk _; simp [natCharsAux]
  | succ fuel ih =>
    intro n k hk hn
    by_cases h : n < 10
    · simp [natCharsAux, h, hk]
    · have hk2 : 2 ≤ k := by
        by_contra hc
        have : k = 1 := by omega
        subst this
        simp at hn
        omega
      have hdiv : n / 10 < 10 ^ (k - 1) := by
        have h10 : (0:Nat) < 10 := by omega
        rw [Nat.div_lt_iff_lt_mul h10]
        have : 10 ^ (k - 1) * 10 = 10 ^ k := by
          rw [← Nat.pow_succ]
          congr 1
          omega
        omega
      have := ih (n / 10) (k - 1) (by omega) hdiv
      simp [natCharsAux, h]
      omega

lemma gasLine_length_le (r : Int) (h0 : 0 ≤ r) (h1 : r ≤ 1023) :
    (gasLine r).length ≤ 15 := by
  have hpre : ("Gas Level: ".toList).length = 11 := rfl
  have hneg : ¬ r < 0 := by omega
  have htn : r.toNat < 10 ^ 4 := by omega
  have := natCharsAux_length_le (r.toNat + 1) r.toNat 4 (by omega) htn
  simp [gasLine, intChars, hneg, natChars, hpre]
  omega

lemma gasLine16_firstCharNonNull (r : Int) :
    firstCharNonNull (snprintfTake 16 (gasLine r)) = true := rfl

lemma snprintfTake16_gasLine_ne (r : Int) (lit : List Char)
    (hlen : lit.length = 16) : snprintfTake 16 (gasLine r) ≠ lit := by
  intro h
  have hl := congrArg List.length h
  have hpre : ("Gas Level: ".toList).length = 11 := rfl
  simp [snprintfTake, gasLine, hpre, hlen] at hl
  omega

lemma snprintfTake_gasLine_ne_short (size : Nat) (r : Int) (lit : List Char)
    (hsize : 12 ≤ size) (hlen : lit.length < 11) :
    snprintfTake size (gasLine r) ≠ lit := by
  intro h
  have hl := congrArg List.length h
  have hpre : ("Gas Level: ".toList).length = 11 := rfl
  simp [snprintfTake, gasLine, hpre] at hl
  omega

/-- C2 counterexample: `Alarm::playAlertSound` does not emit 10 tones in
total — counting its `tone` commands refutes the claimed count. -/
theorem spec_c2_counterexample :
    ¬ Alarm.playAlertSound.countP isToneEvent = 10 := by decide

/-- C2 (amended): `Alarm::playAlertSound` emits exactly 2 repetitions of a
twenty-tone inner sequence (5 iterations of a four-tone motif at fixed
frequencies, durations and delays) — 40 tones in total — each repetition
followed by a 1-second pause, and then silences the tone line. -/
theorem spec_c2_alert_structure :
    Alarm.playAlertSound =
      List.flatten (List.replicate 2
        (List.flatten (List.replicate 5 Alarm.alertInnerBody) ++ [Event.delay 1000])) ++
      [Event.noTone buzzerPin] ∧
    Alarm.playAlertSound.countP isToneEvent = 40 ∧
    Alarm.alertInnerBody.countP isToneEvent = 4 ∧
    Alarm.playAlertSound.getLast? = some (Event.noTone buzzerPin) := by decide

/-- C3 counterexample: in `GSMModule::sendMessage` the terminator byte 26 is
not separated from the preceding message-body write by a 1-second delay —
at message "Excess Gas Detected" and reading 742, the event immediately
before the terminator is the gas-level line itself. -/
theorem spec_c3_counterexample :
    ¬ (∀ i < (GSMModule.sendMessage "Excess Gas Detected".toList 742).length,
        (GSMModule.sendMessage "Excess Gas Detected".toList 742)[i]? =
          some (Event.gsmWriteByte 26) →
        (GSMModule.sendMessage "Excess Gas Detected".toList 742)[i - 1]? =
          some (Event.delay 1000)) := by decide

/-- C3 (amended): for every message text and reading, `sendMessage` emits its
four parts in this fixed order — mode-set command, recipient-addressed send
command, message body followed by the formatted gas-level line, terminator
byte 26 — with 1-second delays after the first command, after the second
command, and after the terminator byte; there is no delay between the body
and the terminator. -/
theorem spec_c3_send_order (message : List Char) (gasLevel : Int) :
    (GSMModule.sendMessage message gasLevel).length = 8 ∧
    (GSMModule.sendMessage message gasLevel)[0]? =
      some (Event.gsmPrintln "AT+CMGF=1".toList) ∧
    (GSMModule.sendMessage message gasLevel)[1]? = some (Event.delay 1000) ∧
    (GSMModule.sendMessage message gasLevel)[2]? =
      some (Event.gsmPrintln "AT+CMGS=\"+91xxxxxxxxxx\"\r".toList) ∧
    (GSMModule.sendMessage message gasLevel)[3]? = some (Event.delay 1000) ∧
    (GSMModule.sendMessage message gasLevel)[4]? = some (Event.gsmPrintln message) ∧
    (GSMModule.sendMessage message gasLevel)[5]? =
      some (Event.gsmPrintln (snprintfTake 30 (gasLine gasLevel))) ∧
    (GSMModule.sendMessage message gasLevel)[6]? = some (Event.gsmWriteByte 26) ∧
    (GSMModule.sendMessage message gasLevel)[7]? = some (Event.delay 1000) :=
  ⟨rfl, rfl, rfl, rfl, rfl, rfl, rfl, rfl, rfl⟩

/-- C5: `trigger()` is idempotent on the latched pin outputs — running the
trace of two consecutive `trigger()` calls from any starting pin state
yields the same state as one call; likewise for `reset()`. -/
theorem spec_c5_trigger_reset_idempotent (s : Nat → Bool) :
    applyTrace (Alarm.trigger ++ Alarm.trigger) s = applyTrace Alarm.trigger s ∧
    applyTrace (Alarm.reset ++ Alarm.reset) s = applyTrace Alarm.reset s := by
  constructor <;> funext q <;>
    simp only [applyTrace, Alarm.trigger, Alarm.reset, applyEvent,
      List.foldl_cons, List.foldl_nil, List.cons_append, List.nil_append,
      Function.update_apply] <;>
    split_ifs <;> rfl

/-- C6: from every starting pin state, running `trigger()` and then
`reset()` leaves exactly the safe-state output pattern — buzzer LOW, red
LED LOW, green LED HIGH, relay LOW. -/
theorem spec_c6_reset_after_trigger (s : Nat → Bool) :
    applyTrace (Alarm.trigger ++ Alarm.reset) s buzzerPin = false ∧
    applyTrace (Alarm.trigger ++ Alarm.reset) s redLedPin = false ∧
    applyTrace (Alarm.trigger ++ Alarm.reset) s greenLedPin = true ∧
    applyTrace (Alarm.trigger ++ Alarm.reset) s relayPin = false :=
  ⟨rfl, rfl, rfl, rfl⟩

/-- C7: at reading 300 with threshold 500, the cycle takes the Safe branch —
the LCD operations show "Gas Scan is ON" / "Gas Level: 300" first and
"Gas Level Normal" afterwards, and no write at all reaches the modem. -/
theorem spec_c7_safe_scenario_300 :
    (GasLeakageDetector.detectAndRespond THRESHOLD 300).filter isLcdEvent =
      [Event.lcdClear, Event.lcdSetCursor 0 0,
       Event.lcdPrint "Gas Scan is ON".toList,
       Event.lcdSetCursor 0 1, Event.lcdPrint "Gas Level: 300".toList,
       Event.lcdClear, Event.lcdSetCursor 0 0,
       Event.lcdPrint "Gas Level Normal".toList] ∧
    (GasLeakageDetector.detectAndRespond THRESHOLD 300).countP isGsmEvent = 0 := by
  decide

/-- C9: `trigger()` never writes the buzzer pin — from every starting pin
state the buzzer level is unchanged, every pin other than the red LED,
green LED and relay is unchanged, and it is `reset()` that drives the
buzzer pin low. -/
theorem spec_c9_trigger_buzzer_frame (s : Nat → Bool) (p : Nat)
    (h9 : p ≠ redLedPin) (h8 : p ≠ greenLedPin) (h12 : p ≠ relayPin) :
    applyTrace Alarm.trigger s buzzerPin = s buzzerPin ∧
    applyTrace Alarm.trigger s p = s p ∧
    applyTrace Alarm.reset s buzzerPin = false := by
  refine ⟨rfl, ?_, rfl⟩
  simp only [applyTrace, Alarm.trigger, applyEvent,
    List.foldl_cons, List.foldl_nil, Function.update_apply]
  split_ifs with hc1
  · exact absurd hc1 h12
  · rfl

/-- C9 witness: the frame property instantiated at the all-HIGH starting
state and pin 13 (the buzzer). -/
theorem spec_c9_trigger_buzzer_frame_witness :
    applyTrace Alarm.trigger (fun _ => true) buzzerPin =
      (fun _ : Nat => true) buzzerPin ∧
    applyTrace Alarm.trigger (fun _ => true) 13 = (fun _ : Nat => true) 13 ∧
    applyTrace Alarm.reset (fun _ => true) buzzerPin = false :=
  spec_c9_trigger_buzzer_frame (fun _ => true) 13
    (by decide) (by decide) (by decide)

/-- C4: in the Danger branch the side effects occur in strict sequential
order — the three indicator/relay writes of `trigger()` (tag 1) come after
the initial gas-level display (whose clear is the leading tag 0) and before
the five modem writes of `sendMessage` (tag 2), which all complete before
the alert tones and final `noTone` (tag 3), which in turn precede the
"Gas Level Exceed"/"SMS Sent" display update (whose clear is the trailing
tag 0): projecting the cycle's trace through `phaseOf` yields exactly this
tag sequence. -/
theorem spec_c4_danger_order (r : Int) (h : THRESHOLD < r) :
    (GasLeakageDetector.detectAndRespond THRESHOLD r).filterMap phaseOf =
      [0] ++ List.replicate 3 1 ++ List.replicate 5 2 ++
        List.replicate 41 3 ++ [0] := by
  unfold GasLeakageDetector.detectAndRespond
  rw [if_pos h]
  rfl

/-- C4 witness: the Danger-branch ordering at the concrete reading 501. -/
theorem spec_c4_danger_order_witness :
    (GasLeakageDetector.detectAndRespond THRESHOLD 501).filterMap phaseOf =
      [0] ++ List.replicate 3 1 ++ List.replicate 5 2 ++
        List.replicate 41 3 ++ [0] :=
  spec_c4_danger_order 501 (by decide)

/-- C8: for every reading in `[0, 1023]`, the text "Gas Level: " followed by
the decimal digits of the reading is at most 15 characters, so it fits the
16-byte `snprintf` buffer of `showGasLevel` and the second display line is
exactly the untruncated formatted text. -/
theorem spec_c8_gasline_fits (r : Int) (h0 : 0 ≤ r) (h1 : r ≤ 1023) :
    (gasLine r).length ≤ 15 ∧
    snprintfTake 16 (gasLine r) = gasLine r ∧
    Display.showGasLevel r =
      Display.showMessage "Gas Scan is ON".toList (gasLine r) := by
  have hlen := gasLine_length_le r h0 h1
  have htake : snprintfTake 16 (gasLine r) = gasLine r := by
    unfold snprintfTake
    exact List.take_of_length_le (by omega)
  exact ⟨hlen, htake, by rw [Display.showGasLevel, htake]⟩

/-- C8 witness: the bound instantiated at the largest in-range reading,
1023. -/
theorem spec_c8_gasline_fits_witness :
    (gasLine 1023).length ≤ 15 ∧
    snprintfTake 16 (gasLine 1023) = gasLine 1023 ∧
    Display.showGasLevel 1023 =
      Display.showMessage "Gas Scan is ON".toList (gasLine 1023) :=
  spec_c8_gasline_fits 1023 (by decide) (by decide)

lemma writeAt_blank (s : List Char) : writeAt blankRow 0 s = padRow s := by
  unfold writeAt padRow blankRow
  rw [List.take_zero, List.nil_append, Nat.zero_add, List.drop_replicate,
    List.take_append_eq_append_take, List.take_append_eq_append_take,
    List.take_replicate, List.take_replicate]
  congr 2
  omega

/-- C10: for all `line1` and `line2` and every starting display state,
`showMessage` clears the display and writes `line1` at the start of the
first row; it writes `line2` at the start of the second row exactly when
`line2`'s first character is non-null, and with the omitted (empty) default
second argument the second row is left blank after the clear. -/
theorem spec_c10_showMessage_rows (line1 line2 : List Char) (st : LCDState) :
    (applyLcdTrace (Display.showMessage line1 line2) st).row0 = padRow line1 ∧
    (applyLcdTrace (Display.showMessage line1 line2) st).row1 =
      (if firstCharNonNull line2 then padRow line2 else blankRow) ∧
    (applyLcdTrace (Display.showMessage line1 []) st).row1 = blankRow := by
  have hnil : firstCharNonNull [] = false := rfl
  refine ⟨?_, ?_, ?_⟩ <;>
    by_cases h : firstCharNonNull line2 <;>
      simp [Display.showMessage, applyLcdTrace, applyLcdEvent, h, hnil,
        writeAt_blank]

lemma dangerOutputs_of_gt (r : Int) (h : THRESHOLD < r) :
    DangerOutputs (GasLeakageDetector.detectAndRespond THRESHOLD r) := by
  have hne := snprintfTake_gasLine_ne_short 30 r
    ['A', 'T', '+', 'C', 'M', 'G', 'F', '=', '1'] (by omega) (by decide)
  have hsms : firstCharNonNull ['S', 'M', 'S', ' ', 'S', 'e', 'n', 't'] = true := rfl
  unfold DangerOutputs GasLeakageDetector.detectAndRespond
  rw [if_pos h]
  refine ⟨?_, ?_, ?_, ?_, ?_, ?_, ?_⟩ <;>
    simp [Display.showGasLevel, Display.showMessage, Alarm.trigger,
      GSMModule.sendMessage, Alarm.playAlertSound, Alarm.alertInnerBody,
      cppFor, gasLine16_firstCharNonNull, hne, hne.symm, hsms, isToneEvent,
      List.countP_append, List.countP_cons]

lemma not_safeOutputs_of_gt (r : Int) (h : THRESHOLD < r) :
    ¬ SafeOutputs (GasLeakageDetector.detectAndRespond THRESHOLD r) := by
  have hne := snprintfTake16_gasLine_ne r
    ['G', 'a', 's', ' ', 'L', 'e', 'v', 'e', 'l', ' ', 'N', 'o', 'r', 'm', 'a', 'l']
    (by decide)
  have hsms : firstCharNonNull ['S', 'M', 'S', ' ', 'S', 'e', 'n', 't'] = true := rfl
  unfold SafeOutputs GasLeakageDetector.detectAndRespond
  rw [if_pos h]
  intro hs
  simp [Display.showGasLevel, Display.showMessage, Alarm.trigger,
    GSMModule.sendMessage, Alarm.playAlertSound, Alarm.alertInnerBody,
    cppFor, gasLine16_firstCharNonNull, hne, hne.symm, hsms, isGsmEvent,
    List.countP_append, List.countP_cons] at hs

lemma safeOutputs_of_le (r : Int) (h : ¬ THRESHOLD < r) :
    SafeOutputs (GasLeakageDetector.detectAndRespond THRESHOLD r) := by
  have hnil : firstCharNonNull [] = false := rfl
  unfold SafeOutputs GasLeakageDetector.detectAndRespond
  rw [if_neg h]
  refine ⟨?_, ?_, ?_, ?_, ?_, ?_⟩ <;>
    simp [Display.showGasLevel, Display.showMessage, Alarm.reset,
      gasLine16_firstCharNonNull, hnil, isGsmEvent,
      List.countP_append, List.countP_cons]

lemma not_dangerOutputs_of_le (r : Int) (h : ¬ THRESHOLD < r) :
    ¬ DangerOutputs (GasLeakageDetector.detectAndRespond THRESHOLD r) := by
  have hne1 := snprintfTake16_gasLine_ne r
    ['G', 'a', 's', ' ', 'L', 'e', 'v', 'e', 'l', ' ', 'E', 'x', 'c', 'e', 'e', 'd']
    (by decide)
  have hne2 := snprintfTake_gasLine_ne_short 16 r
    ['S', 'M', 'S', ' ', 'S', 'e', 'n', 't'] (by omega) (by decide)
  have hnil : firstCharNonNull [] = false := rfl
  unfold DangerOutputs GasLeakageDetector.detectAndRespond
  rw [if_neg h]
  intro hd
  simp [Display.showGasLevel, Display.showMessage, Alarm.reset,
    gasLine16_firstCharNonNull, hne1, hne1.symm, hne2, hne2.symm, hnil,
    isToneEvent, List.countP_append, List.countP_cons] at hd

/-- C1: with threshold 500 (strict greater-than semantics), a cycle of
`detectAndRespond` produces the Danger-branch outputs (red LED HIGH, green
LED LOW, relay HIGH, exactly one SMS, alert tone, "Gas Level Exceed"/"SMS
Sent" shown) exactly when the reading exceeds the threshold, and produces
the Safe-branch outputs (buzzer LOW, red LOW, green HIGH, relay LOW,
"Gas Level Normal" shown, nothing sent to the modem) exactly when it does
not; in particular reading 500 is Safe and 501 is Danger. -/
theorem spec_c1_threshold_semantics (r : Int) :
    THRESHOLD = 500 ∧
    (DangerOutputs (GasLeakageDetector.detectAndRespond THRESHOLD r) ↔
      THRESHOLD < r) ∧
    (SafeOutputs (GasLeakageDetector.detectAndRespond THRESHOLD r) ↔
      r ≤ THRESHOLD) := by
  refine ⟨rfl, ⟨?_, dangerOutputs_of_gt r⟩, ⟨?_, ?_⟩⟩
  · intro hd
    by_contra hc
    exact not_dangerOutputs_of_le r hc hd
  · intro hs
    by_contra hc
    exact not_safeOutputs_of_gt r (by omega) hs
  · intro hle
    exact safeOutputs_of_le r (by omega)
